import Mathlib

/-!
Verification development for the `llm_news` ingestion pipeline
(`src/scrape.py`, class `EfficientNewsScraper`).

The Python code is shallowly embedded: pure fragments become Lean
functions, the external collaborators (zero-shot classifier, embedding
encoder, page fetcher/extractor, `urllib.parse.urljoin`) become explicit
function arguments, and Python's exception flow becomes `Except`.
Machine floats are modelled by `ℚ` (the only numeric facts used by the
claims are exact: `0.0`, `1.0`, two-decimal rounding bounds).
-/

/-- A Python value as far as the pipeline's metadata handling observes it:
strings, numbers (modelled exactly by `ℚ`), booleans, `None`, lists and
dicts (association lists in insertion order, keys unique). -/
inductive PyVal where
  | str (s : String)
  | num (q : ℚ)
  | bool (b : Bool)
  | null
  | list (l : List PyVal)
  | dict (l : List (String × PyVal))

/-- First-match lookup in an association list (Python dict `get`). -/
def pyLookup (m : List (String × PyVal)) (k : String) : Option PyVal :=
  match m with
  | [] => Option.none
  | (k', v) :: rest => if k' = k then Option.some v else pyLookup rest k

/-- `d.get(k, default)` on a Python dict. -/
def pyGetD (m : List (String × PyVal)) (k : String) (dflt : PyVal) : PyVal :=
  (pyLookup m k).getD dflt

/-- `d[k] = v` on a Python dict: update in place if the key exists
(keeping its position), else append. -/
def pySet (m : List (String × PyVal)) (k : String) (v : PyVal) :
    List (String × PyVal) :=
  match m with
  | [] => [(k, v)]
  | (k', w) :: rest => if k' = k then (k, v) :: rest else (k', w) :: pySet rest k v

/-- Whitespace characters recognised by Python's `str.strip()` /
`str.split()` (ASCII fragment). -/
def isPySpace (c : Char) : Bool :=
  c = ' ' || c = '\t' || c = '\n' || c = '\x0d' || c = '\x0b' || c = '\x0c'

/-- `str.strip()`: drop leading and trailing whitespace. -/
def pyStrip (s : String) : String :=
  String.mk (((s.data.dropWhile isPySpace).reverse.dropWhile isPySpace).reverse)

/-- Worker for `str.split()` with no separator. -/
def splitWSAux : List Char → List Char → List String
  | [], acc => if acc.isEmpty then [] else [String.mk acc.reverse]
  | c :: cs, acc =>
    if isPySpace c then
      if acc.isEmpty then splitWSAux cs []
      else String.mk acc.reverse :: splitWSAux cs []
    else splitWSAux cs (c :: acc)

/-- `str.split()`: split on whitespace runs, no empty fields. -/
def pySplitWS (s : String) : List String := splitWSAux s.data []

/-- Worker for `str.split(sep)` with a one-character separator. -/
def splitOnAux (sep : Char) : List Char → List Char → List String
  | [], acc => [String.mk acc.reverse]
  | c :: cs, acc =>
    if c = sep then String.mk acc.reverse :: splitOnAux sep cs []
    else splitOnAux sep cs (c :: acc)

/-- `str.split(sep)` for a one-character separator: always non-empty,
keeps empty fields. -/
def pySplitOn (s : String) (sep : Char) : List String := splitOnAux sep s.data []

/-- Python string slicing `s[:n]`. -/
def pyTake (s : String) (n : Nat) : String := String.mk (s.data.take n)

/-- `str.startswith(pre)`. -/
def pyStartsWith (s pre : String) : Bool := pre.data.isPrefixOf s.data

/-! ### A model of `json.loads`

`json.loads` is Python-stdlib code consumed by `migrate_categories`; the
migration only ever feeds it strings that start with `[` and observes
the parsed value's list structure, first element, and `"category"` key.
This is a strict recursive-descent parser for the JSON grammar
(values: object, array, string with escapes, number, `true`/`false`/
`null`), erroring on anything else, exactly as `json.loads` raises. -/

def isJsonWs (c : Char) : Bool :=
  c = ' ' || c = '\t' || c = '\n' || c = '\x0d'

def skipWs (cs : List Char) : List Char := cs.dropWhile isJsonWs

def hexDigitVal (c : Char) : Option Nat :=
  if '0' ≤ c ∧ c ≤ '9' then Option.some (c.toNat - 48)
  else if 'a' ≤ c ∧ c ≤ 'f' then Option.some (c.toNat - 87)
  else if 'A' ≤ c ∧ c ≤ 'F' then Option.some (c.toNat - 55)
  else Option.none

/-- Parse the body of a JSON string literal (after the opening quote). -/
def parseJStr : List Char → List Char → Option (String × List Char)
  | [], _ => Option.none
  | '\\' :: e :: rest, acc =>
    match e with
    | '\"' => parseJStr rest ('\"' :: acc)
    | '\\' => parseJStr rest ('\\' :: acc)
    | '/' => parseJStr rest ('/' :: acc)
    | 'b' => parseJStr rest ('\x08' :: acc)
    | 'f' => parseJStr rest ('\x0c' :: acc)
    | 'n' => parseJStr rest ('\n' :: acc)
    | 'r' => parseJStr rest ('\x0d' :: acc)
    | 't' => parseJStr rest ('\t' :: acc)
    | 'u' =>
      match rest with
      | a :: b :: c :: d :: r2 =>
        match hexDigitVal a, hexDigitVal b, hexDigitVal c, hexDigitVal d with
        | Option.some va, Option.some vb, Option.some vc, Option.some vd =>
          parseJStr r2 (Char.ofNat (((va * 16 + vb) * 16 + vc) * 16 + vd) :: acc)
        | _, _, _, _ => Option.none
      | _ => Option.none
    | _ => Option.none
  | c :: rest, acc =>
    if c = '\"' then Option.some (String.mk acc.reverse, rest)
    else if c.toNat < 32 then Option.none
    else parseJStr rest (c :: acc)

def digitsToNat (ds : List Char) : Nat :=
  ds.foldl (fun n c => 10 * n + (c.toNat - 48)) 0

/-- Parse a JSON number token into an exact rational. -/
def parseJNum (cs : List Char) : Option (ℚ × List Char) :=
  let (neg, cs1) := match cs with
    | '-' :: r => (true, r)
    | _ => (false, cs)
  let (ds, cs2) := cs1.span (fun c => c.isDigit)
  match ds with
  | [] => Option.none
  | '0' :: _ :: _ => Option.none
  | _ =>
    let ip : ℚ := (digitsToNat ds : ℚ)
    let fr : Option (ℚ × List Char) :=
      match cs2 with
      | '.' :: r =>
        let (fs, cs3) := r.span (fun c => c.isDigit)
        if fs.isEmpty then Option.none
        else Option.some (ip + (digitsToNat fs : ℚ) / ((10 : ℚ) ^ fs.length), cs3)
      | _ => Option.some (ip, cs2)
    match fr with
    | Option.none => Option.none
    | Option.some (base, cs3) =>
      let ex : Option (ℚ × List Char) :=
        match cs3 with
        | 'e' :: r =>
          match r with
          | '-' :: r2 =>
            let (es, cs4) := r2.span (fun c => c.isDigit)
            if es.isEmpty then Option.none
            else Option.some (base / ((10 : ℚ) ^ digitsToNat es), cs4)
          | '+' :: r2 =>
            let (es, cs4) := r2.span (fun c => c.isDigit)
            if es.isEmpty then Option.none
            else Option.some (base * ((10 : ℚ) ^ digitsToNat es), cs4)
          | _ =>
            let (es, cs4) := r.span (fun c => c.isDigit)
            if es.isEmpty then Option.none
            else Option.some (base * ((10 : ℚ) ^ digitsToNat es), cs4)
        | 'E' :: r =>
          match r with
          | '-' :: r2 =>
            let (es, cs4) := r2.span (fun c => c.isDigit)
            if es.isEmpty then Option.none
            else Option.some (base / ((10 : ℚ) ^ digitsToNat es), cs4)
          | '+' :: r2 =>
            let (es, cs4) := r2.span (fun c => c.isDigit)
            if es.isEmpty then Option.none
            else Option.some (base * ((10 : ℚ) ^ digitsToNat es), cs4)
          | _ =>
            let (es, cs4) := r.span (fun c => c.isDigit)
            if es.isEmpty then Option.none
            else Option.some (base * ((10 : ℚ) ^ digitsToNat es), cs4)
        | _ => Option.some (base, cs3)
      match ex with
      | Option.none => Option.none
      | Option.some (q, rest) =>
        Option.some (if neg then -q else q, rest)

mutual

/-- Parse one JSON value; fuel bounds recursion depth (any strict
consumption of input decreases length, so `length + 1` fuel suffices). -/
def parseJVal : Nat → List Char → Option (PyVal × List Char)
  | 0, _ => Option.none
  | Nat.succ f, cs =>
    match skipWs cs with
    | [] => Option.none
    | c :: rest =>
      if c = '\x7b' then
        match skipWs rest with
        | '\x7d' :: r2 => Option.some (PyVal.dict [], r2)
        | r2 => parseJObjLoop f r2 []
      else if c = '[' then
        match skipWs rest with
        | ']' :: r2 => Option.some (PyVal.list [], r2)
        | r2 => parseJArrLoop f r2 []
      else if c = '\"' then
        match parseJStr rest [] with
        | Option.some (s, r2) => Option.some (PyVal.str s, r2)
        | Option.none => Option.none
      else if c = 't' then
        match rest with
        | 'r' :: 'u' :: 'e' :: r2 => Option.some (PyVal.bool true, r2)
        | _ => Option.none
      else if c = 'f' then
        match rest with
        | 'a' :: 'l' :: 's' :: 'e' :: r2 => Option.some (PyVal.bool false, r2)
        | _ => Option.none
      else if c = 'n' then
        match rest with
        | 'u' :: 'l' :: 'l' :: r2 => Option.some (PyVal.null, r2)
        | _ => Option.none
      else if c = '-' ∨ c.isDigit then
        match parseJNum (c :: rest) with
        | Option.some (q, r2) => Option.some (PyVal.num q, r2)
        | Option.none => Option.none
      else Option.none

/-- Elements of a JSON array after the opening bracket (non-empty case). -/
def parseJArrLoop : Nat → List Char → List PyVal → Option (PyVal × List Char)
  | 0, _, _ => Option.none
  | Nat.succ f, cs, acc =>
    match parseJVal f cs with
    | Option.none => Option.none
    | Option.some (v, rest) =>
      match skipWs rest with
      | ',' :: r2 => parseJArrLoop f r2 (v :: acc)
      | ']' :: r2 => Option.some (PyVal.list (v :: acc).reverse, r2)
      | _ => Option.none

/-- Members of a JSON object after the opening brace (non-empty case);
a duplicated key keeps the last value, as in Python. -/
def parseJObjLoop : Nat → List Char → List (String × PyVal) →
    Option (PyVal × List Char)
  | 0, _, _ => Option.none
  | Nat.succ f, cs, acc =>
    match skipWs cs with
    | '\"' :: r1 =>
      match parseJStr r1 [] with
      | Option.none => Option.none
      | Option.some (k, r2) =>
        match skipWs r2 with
        | ':' :: r3 =>
          match parseJVal f r3 with
          | Option.none => Option.none
          | Option.some (v, r4) =>
            match skipWs r4 with
            | ',' :: r5 => parseJObjLoop f r5 (pySet acc k v)
            | '\x7d' :: r5 => Option.some (PyVal.dict (pySet acc k v), r5)
            | _ => Option.none
        | _ => Option.none
    | _ => Option.none

end

/-- Model of `json.loads`: parse a complete JSON document, error on
trailing garbage or any syntax error. -/
def jsonLoads (s : String) : Except Unit PyVal :=
  match parseJVal (s.data.length + 1) s.data with
  | Option.some (v, rest) =>
    if (skipWs rest).isEmpty then Except.ok v else Except.error ()
  | Option.none => Except.error ()

/-! ### Migration routine (`migrate_categories`, src/scrape.py:72-104) -/

/-- Python truthiness for the values migration can meet. -/
def pyTruthy : PyVal → Bool
  | PyVal.str s => !(s.isEmpty)
  | PyVal.num q => decide (q ≠ 0)
  | PyVal.bool b => b
  | PyVal.null => false
  | PyVal.list l => !l.isEmpty
  | PyVal.dict l => !l.isEmpty

/-- The body of the `try:` block in `migrate_categories` acting on the
record's `categories` value: `Except.error` marks a raised exception
(`AttributeError` on a non-string, `json.JSONDecodeError`, bad
subscripts, missing `"category"` key). Returns the value to store. -/
def migrateTry (categories : PyVal) : Except Unit PyVal :=
  match categories with
  | PyVal.str s =>
    if pyStartsWith s "[" then
      match jsonLoads s with
      | Except.error _ => Except.error ()
      | Except.ok v =>
        if pyTruthy v then
          match v with
          | PyVal.list (x :: _) =>
            match x with
            | PyVal.dict d =>
              match pyLookup d "category" with
              | Option.some c => Except.ok c
              | Option.none => Except.error ()
            | _ => Except.error ()
          | _ => Except.error ()
        else Except.ok (PyVal.str "general")
    else if s.data.contains ',' then
      Except.ok (PyVal.str ((pySplitOn s ',').headD ""))
    else if !(pyTruthy (PyVal.str s)) then
      Except.ok (PyVal.str "general")
    else
      Except.ok (PyVal.str s)
  | _ => Except.error ()

/-- The per-record mapping of `migrate_categories`, with the
`except Exception` fallback forcing `"general"`. -/
def migrateValue (categories : PyVal) : PyVal :=
  match migrateTry categories with
  | Except.ok v => v
  | Except.error _ => PyVal.str "general"

/-- Record metadata as stored in ChromaDB. -/
abbrev Metadata : Type := List (String × PyVal)

/-- One record's metadata after the migration loop body
(`categories = metadata.get("categories", "")`, branch, assignment). -/
def migrateMeta (m : Metadata) : Metadata :=
  pySet m "categories" (migrateValue (pyGetD m "categories" (PyVal.str "")))

/-- The collection: `ids` paired with `metadatas`, in storage order. -/
abbrev Store : Type := List (String × Metadata)

/-- `migrate_categories`: maps every record, then issues one
`collection.update(ids=ids, metadatas=updated_metadatas)` call when
`updated_metadatas` is non-empty.  Returns the new store state and the
batched write that was issued (`Option.none` = no update call). -/
def migrate_categories (s : Store) : Store × Option (List String × List Metadata) :=
  let ids := s.map Prod.fst
  let updated := (s.map Prod.snd).foldr (fun m acc => migrateMeta m :: acc) []
  if updated.isEmpty then (s, Option.none)
  else (ids.zip updated, Option.some (ids, updated))

/-! ### Identity assigner (`generate_article_id`, src/scrape.py:106-109)

`hashlib.md5(...).hexdigest()` is stdlib code; it is modelled here by a
byte-accurate MD5 (RFC 1321) over the UTF-8 encoding of the pre-hash
string, with 32-bit words as `Nat` reduced `% 2^32`. -/

/-- UTF-8 encoding of one unicode scalar value. -/
def utf8Char (c : Char) : List Nat :=
  let n := c.toNat
  if n < 128 then [n]
  else if n < 2048 then [192 + n / 64, 128 + n % 64]
  else if n < 65536 then [224 + n / 4096, 128 + (n / 64) % 64, 128 + n % 64]
  else [240 + n / 262144, 128 + (n / 4096) % 64, 128 + (n / 64) % 64, 128 + n % 64]

/-- `str.encode()`: UTF-8 bytes of a string. -/
def utf8Encode (s : String) : List Nat := (s.data.map utf8Char).flatten

/-- Left-rotation of a 32-bit word (input assumed `< 2^32`). -/
def rotl32 (x n : Nat) : Nat := (x <<< n) % 4294967296 + x >>> (32 - n)

/-- Bitwise complement of a 32-bit word (input assumed `< 2^32`). -/
def not32 (x : Nat) : Nat := 4294967295 - x

/-- The 64 MD5 sine-derived constants. -/
def md5K : List Nat :=
  [0xd76aa478, 0xe8c7b756, 0x242070db, 0xc1bdceee,
   0xf57c0faf, 0x4787c62a, 0xa8304613, 0xfd469501,
   0x698098d8, 0x8b44f7af, 0xffff5bb1, 0x895cd7be,
   0x6b901122, 0xfd987193, 0xa679438e, 0x49b40821,
   0xf61e2562, 0xc040b340, 0x265e5a51, 0xe9b6c7aa,
   0xd62f105d, 0x02441453, 0xd8a1e681, 0xe7d3fbc8,
   0x21e1cde6, 0xc33707d6, 0xf4d50d87, 0x455a14ed,
   0xa9e3e905, 0xfcefa3f8, 0x676f02d9, 0x8d2a4c8a,
   0xfffa3942, 0x8771f681, 0x6d9d6122, 0xfde5380c,
   0xa4beea44, 0x4bdecfa9, 0xf6bb4b60, 0xbebfbc70,
   0x289b7ec6, 0xeaa127fa, 0xd4ef3085, 0x04881d05,
   0xd9d4d039, 0xe6db99e5, 0x1fa27cf8, 0xc4ac5665,
   0xf4292244, 0x432aff97, 0xab9423a7, 0xfc93a039,
   0x655b59c3, 0x8f0ccc92, 0xffeff47d, 0x85845dd1,
   0x6fa87e4f, 0xfe2ce6e0, 0xa3014314, 0x4e0811a1,
   0xf7537e82, 0xbd3af235, 0x2ad7d2bb, 0xeb86d391]

/-- The MD5 per-round shift amounts. -/
def md5S : List Nat :=
  [7, 12, 17, 22, 7, 12, 17, 22, 7, 12, 17, 22, 7, 12, 17, 22,
   5, 9, 14, 20, 5, 9, 14, 20, 5, 9, 14, 20, 5, 9, 14, 20,
   4, 11, 16, 23, 4, 11, 16, 23, 4, 11, 16, 23, 4, 11, 16, 23,
   6, 10, 15, 21, 6, 10, 15, 21, 6, 10, 15, 21, 6, 10, 15, 21]

/-- The MD5 round function at step `i`. -/
def md5F (i b c d : Nat) : Nat :=
  if i < 16 then (b &&& c) ||| (not32 b &&& d)
  else if i < 32 then (d &&& b) ||| (not32 d &&& c)
  else if i < 48 then b ^^^ c ^^^ d
  else c ^^^ (b ||| not32 d)

/-- Message-word index used at step `i`. -/
def md5G (i : Nat) : Nat :=
  if i < 16 then i
  else if i < 32 then (5 * i + 1) % 16
  else if i < 48 then (3 * i + 5) % 16
  else (7 * i) % 16

/-- Little-endian 32-bit word `j` of a 64-byte block. -/
def md5Word (block : List Nat) (j : Nat) : Nat :=
  block.getD (4 * j) 0 + 256 * block.getD (4 * j + 1) 0 +
    65536 * block.getD (4 * j + 2) 0 + 16777216 * block.getD (4 * j + 3) 0

/-- One of the 64 MD5 steps. -/
def md5Step (block : List Nat) (st : Nat × Nat × Nat × Nat) (i : Nat) :
    Nat × Nat × Nat × Nat :=
  let (a, b, c, d) := st
  let f := (md5F i b c d + a + md5K.getD i 0 + md5Word block (md5G i)) % 4294967296
  (d, (b + rotl32 f (md5S.getD i 0)) % 4294967296, b, c)

/-- Process one 64-byte block. -/
def md5Chunk (st : Nat × Nat × Nat × Nat) (block : List Nat) :
    Nat × Nat × Nat × Nat :=
  let (a0, b0, c0, d0) := st
  let (a, b, c, d) := (List.range 64).foldl (md5Step block) (a0, b0, c0, d0)
  ((a0 + a) % 4294967296, (b0 + b) % 4294967296,
   (c0 + c) % 4294967296, (d0 + d) % 4294967296)

/-- `n` as `k` little-endian bytes. -/
def leBytes (k n : Nat) : List Nat :=
  match k with
  | 0 => []
  | Nat.succ k' => n % 256 :: leBytes k' (n / 256)

/-- MD5 padding: `0x80`, zeros to 56 mod 64, then the 64-bit bit length. -/
def md5Pad (msg : List Nat) : List Nat :=
  let len := msg.length
  let zeros := (120 - ((len + 1) % 64)) % 64
  msg ++ [128] ++ List.replicate zeros 0 ++ leBytes 8 ((len * 8) % 18446744073709551616)

/-- Split into 64-byte blocks. -/
def chunks64 (l : List Nat) : List (List Nat) :=
  if l.isEmpty then [] else l.take 64 :: chunks64 (l.drop 64)
termination_by l.length
decreasing_by
  cases l with
  | nil => simp_all
  | cons x xs => simp only [List.length_drop, List.length_cons]; omega

/-- The 16 MD5 digest bytes of a byte message. -/
def md5Bytes (msg : List Nat) : List Nat :=
  let (a, b, c, d) :=
    (chunks64 (md5Pad msg)).foldl md5Chunk
      (0x67452301, 0xefcdab89, 0x98badcfe, 0x10325476)
  leBytes 4 a ++ leBytes 4 b ++ leBytes 4 c ++ leBytes 4 d

/-- Lower-case hex character for a nibble. -/
def hexChar (n : Nat) : Char :=
  if n < 10 then Char.ofNat (48 + n) else Char.ofNat (87 + n)

/-- `hashlib.md5(bytes).hexdigest()`. -/
def md5Hex (msg : List Nat) : String :=
  String.mk (((md5Bytes msg).map (fun b => [hexChar (b / 16), hexChar (b % 16)])).flatten)

/-- The pre-hash string `f"{url}_{headline}"`. -/
def preHashString (url headline : String) : String := url ++ "_" ++ headline

/-- `generate_article_id` (src/scrape.py:106-109). -/
def generate_article_id (url headline : String) : String :=
  md5Hex (utf8Encode (preHashString url headline))

/-! ### Embedder (`generate_embedding`, src/scrape.py:111-116)

The sentence-transformer encoder is an external model, passed in as
`encode`; floats are modelled by `ℚ`. -/

def generate_embedding (encode : String → List ℚ) (text : String) : List ℚ :=
  if (pyStrip text).isEmpty then List.replicate 384 0
  else encode text

/-! ### Categorizer (`categorize_article`, src/scrape.py:118-141)

The zero-shot classifier call
`self.categorizer(text, candidate_labels=..., multi_label=False, ...)`
is external; it is passed in as a function returning either an
exception (`Except.error`) or its `labels`/`scores` lists (sorted
descending by score, per its interface contract). -/

/-- The classifier's result dict. -/
structure ClsResult where
  labels : List String
  scores : List ℚ
  deriving DecidableEq

/-- The categorizer's result: `{"category": ..., "confidence": ...}`. -/
structure CatResult where
  category : String
  confidence : ℚ
  deriving DecidableEq

/-- Python `round(x, 2)`: round half to even at two decimals
(the binary-double rounding noise of CPython is not modelled). -/
def halfEven (y : ℚ) : ℤ :=
  if y - (⌊y⌋ : ℚ) < 1 / 2 then ⌊y⌋
  else if 1 / 2 < y - (⌊y⌋ : ℚ) then ⌊y⌋ + 1
  else if ⌊y⌋ % 2 = 0 then ⌊y⌋ else ⌊y⌋ + 1

def pyRound2 (x : ℚ) : ℚ := (halfEven (x * 100) : ℚ) / 100

/-- The body of the `try:` block of `categorize_article`:
`result['labels'][0]` / `result['scores'][0]` raise `IndexError` on
empty lists, and the classifier call itself may raise. -/
def categorizeTry (classifier : String → Except Unit ClsResult) (text : String) :
    Except Unit CatResult :=
  match classifier text with
  | Except.error e => Except.error e
  | Except.ok r =>
    match r.labels with
    | [] => Except.error ()
    | l :: _ =>
      match r.scores with
      | [] => Except.error ()
      | q :: _ => Except.ok ⟨l, pyRound2 q⟩

/-- `categorize_article` (src/scrape.py:118-141). -/
def categorize_article (classifier : String → Except Unit ClsResult)
    (text : String) : CatResult :=
  if (pyStrip text).isEmpty || (pySplitWS text).length < 3 then
    ⟨"general", 1⟩
  else
    match categorizeTry classifier text with
    | Except.ok c => c
    | Except.error _ => ⟨"general", 1⟩

/-! ### Scraper (`scrape_website`, src/scrape.py:143-203)

Playwright page rendering and BeautifulSoup selector matching are
external: one fetched-and-selected source page is a list of container
field sets (`select_one` results), and a failed fetch/parse is
`Except.error`, caught by the function's outer `try` which returns
`[]`.  `urllib.parse.urljoin` is external and passed in as `uj`;
`datetime.now().isoformat()` is passed in as `now`. -/

/-- The fields `select_one` finds in one container: element text for
headline/description (`Option.none` = element absent), the link
element's `href` attribute, and the image element's `src`/`data-src`
attributes (`Option.none` = no image element). -/
structure RawContainer where
  headline : Option String
  description : Option String
  href : Option String
  img : Option (Option String × Option String)

/-- One in-flight article dict as built at src/scrape.py:183-190. -/
structure ScrapedArticle where
  headline : String
  description : String
  url : String
  image : String
  source : String
  scraped_at : String
  deriving DecidableEq

/-- The per-container body of the extraction loop
(src/scrape.py:165-195): defaulting, URL resolution, and the
`if headline and link and headline != "No headline"` filter. -/
def extractItem (uj : String → String → String) (url now : String)
    (c : RawContainer) : Option ScrapedArticle :=
  let headline := c.headline.getD "No headline"
  let description := c.description.getD ""
  let link := match c.href with
    | Option.some h => if h.isEmpty then "" else uj url h
    | Option.none => ""
  let img := match c.img with
    | Option.none => ""
    | Option.some (src, dsrc) =>
      let isrc := match src with
        | Option.some s => if s.isEmpty then dsrc.getD "" else s
        | Option.none => dsrc.getD ""
      if isrc.isEmpty then "" else uj url isrc
  if !headline.isEmpty && !link.isEmpty && headline ≠ "No headline" then
    Option.some ⟨headline, description, link, img, url, now⟩
  else Option.none

/-- `scrape_website` (src/scrape.py:143-203): a raised fetch/parse
exception is caught by the outer `try` and yields `[]`. -/
def scrape_website (uj : String → String → String) (now url : String)
    (fetched : Except Unit (List RawContainer)) (limit : Nat) :
    List ScrapedArticle :=
  match fetched with
  | Except.error _ => []
  | Except.ok containers => (containers.take limit).filterMap (extractItem uj url now)

/-! ### Batch categorization (`process_articles_batch`, src/scrape.py:205-232) -/

/-- An article after the categorization pass:
`article['categories'] = {category, confidence}` was set (the key is
absent only on the dead per-batch exception path). -/
structure ProcessedArticle where
  headline : String
  description : String
  url : String
  image : String
  source : String
  scraped_at : String
  categories : Option CatResult
  deriving DecidableEq

/-- The per-article step: categorize
`f"{art['headline']} {art['description']}"` and set `'categories'`. -/
def procOne (classifier : String → Except Unit ClsResult)
    (a : ScrapedArticle) : ProcessedArticle :=
  ⟨a.headline, a.description, a.url, a.image, a.source, a.scraped_at,
   Option.some (categorize_article classifier (a.headline ++ " " ++ a.description))⟩

/-- The `for i in range(0, len(articles), batch_size)` loop with
`batch_size = 4`: one group of four is categorized item by item, then
the loop continues on the rest (the per-batch `except` never fires: the
loop body is total in this model, as `categorize_article` catches
internally). -/
def processBatchLoop (classifier : String → Except Unit ClsResult) :
    List ScrapedArticle → List ProcessedArticle
  | a :: b :: c :: d :: rest =>
    procOne classifier a :: procOne classifier b :: procOne classifier c ::
      procOne classifier d :: processBatchLoop classifier rest
  | l => l.map (procOne classifier)

/-- `process_articles_batch` (src/scrape.py:205-232). -/
def process_articles_batch (classifier : String → Except Unit ClsResult)
    (articles : List ScrapedArticle) : List ProcessedArticle :=
  if articles.isEmpty then [] else processBatchLoop classifier articles

/-! ### Store adapter (`store_in_chromadb`, src/scrape.py:234-269) -/

/-- The document text `f"{article['headline']} {article['description']}"`. -/
def docText (a : ProcessedArticle) : String := a.headline ++ " " ++ a.description

/-- The metadata dict built at src/scrape.py:251-260. -/
def storeMetadata (a : ProcessedArticle) : Metadata :=
  [("headline", PyVal.str a.headline),
   ("description", PyVal.str (pyTake a.description 500)),
   ("url", PyVal.str a.url),
   ("image", PyVal.str (pyTake a.image 200)),
   ("source", PyVal.str a.source),
   ("scraped_at", PyVal.str a.scraped_at),
   ("categories", PyVal.str (match a.categories with
      | Option.some c => c.category
      | Option.none => "general")),
   ("text_length", PyVal.num ((docText a).length : ℚ))]

/-- One `collection.upsert` call's arguments. -/
structure UpsertBatch where
  ids : List String
  embeddings : List (List ℚ)
  documents : List String
  metadatas : List Metadata

/-- `store_in_chromadb` (src/scrape.py:234-269): early return on an
empty batch, otherwise one upsert of aligned parallel lists. -/
def store_in_chromadb (encode : String → List ℚ)
    (articles : List ProcessedArticle) : Option UpsertBatch :=
  if articles.isEmpty then Option.none
  else Option.some
    { ids := articles.map (fun a => generate_article_id a.url a.headline),
      embeddings := articles.map (fun a => generate_embedding encode (docText a)),
      documents := articles.map docText,
      metadatas := articles.map storeMetadata }

/-! ### Orchestrator (`scrape_all_websites`, src/scrape.py:271-297)

`self.websites` is the ordered site-name → config mapping; per-site
fetching is abstracted by `fetch`, keyed by the configured URL.  The
per-site `except` block (src/scrape.py:293-295) is unreachable in this
model: `scrape_website` already catches its own exceptions and the
remaining loop body is total. -/

structure SiteConfig where
  url : String
  limit : Nat

def scrape_all_websites (classifier : String → Except Unit ClsResult)
    (uj : String → String → String) (now : String)
    (fetch : String → Except Unit (List RawContainer))
    (sites : List SiteConfig) (maxPerSite : Nat) : List ProcessedArticle :=
  sites.foldl (fun acc site =>
    let articles := scrape_website uj now site.url (fetch site.url)
      (min site.limit maxPerSite)
    if articles.isEmpty then acc
    else acc ++ process_articles_batch classifier articles) []

/-! ### Persisted output (`main`, src/scrape.py:343-344)

`json.dump(articles, f, ...)` serializes the list of article dicts
exactly as they stand after `scrape_all_websites`. -/

def CatResult.toPyVal (c : CatResult) : PyVal :=
  PyVal.dict [("category", PyVal.str c.category),
              ("confidence", PyVal.num c.confidence)]

/-- The JSON value of one processed article dict: the six keys set at
src/scrape.py:183-190 in insertion order, then `'categories'` if the
categorization pass set it. -/
def ProcessedArticle.toDict (a : ProcessedArticle) : PyVal :=
  PyVal.dict ([("headline", PyVal.str a.headline),
    ("description", PyVal.str a.description),
    ("url", PyVal.str a.url),
    ("image", PyVal.str a.image),
    ("source", PyVal.str a.source),
    ("scraped_at", PyVal.str a.scraped_at)] ++
    (match a.categories with
     | Option.some c => [("categories", c.toPyVal)]
     | Option.none => []))

/-- The JSON array written to `efficient_articles.json`. -/
def persistedOutput (articles : List ProcessedArticle) : PyVal :=
  PyVal.list (articles.map ProcessedArticle.toDict)

/-! ### Concrete instances used by counterexamples and witnesses -/

/-- A stub classifier that always reports `tech` with score `0.97`. -/
def clsTech : String → Except Unit ClsResult :=
  fun _ => Except.ok ⟨["tech", "sports"], [97 / 100, 3 / 100]⟩

/-- A stub classifier whose call always raises. -/
def clsBoom : String → Except Unit ClsResult := fun _ => Except.error ()

/-- A concrete stand-in for `urljoin` in closed scenarios (links in the
scenarios are already absolute). -/
def ujKeep : String → String → String := fun _ rel => rel

/-- A stub encoder. -/
def encZero : String → List ℚ := fun _ => [42]

def siteA : SiteConfig := ⟨"https://a.example/news", 12⟩

def siteB : SiteConfig := ⟨"https://b.example/live", 12⟩

/-- Three valid containers for source B. -/
def contB : List RawContainer :=
  [⟨Option.some "Markets rally on policy news",
    Option.some "Stocks rose sharply across the board today",
    Option.some "https://b.example/a1", Option.none⟩,
   ⟨Option.some "Team clinches the title",
    Option.some "A decisive win in the final match",
    Option.some "https://b.example/a2", Option.none⟩,
   ⟨Option.some "New vaccine approved",
    Option.some "Regulators cleared the shot for adults",
    Option.some "https://b.example/a3", Option.none⟩]

/-- Fetch behaviour of the two-source scenario: source A's fetch
raises, source B succeeds with three valid items. -/
def fetchAB : String → Except Unit (List RawContainer) := fun u =>
  if u = siteB.url then Except.ok contB else Except.error ()

/-- A category metadata value already in the clean scalar form the
migration enforces: a non-empty string, not JSON-array-encoded, not
comma-joined. -/
def cleanCatVal : PyVal → Bool
  | PyVal.str s => !s.isEmpty && !(pyStartsWith s "[") && !(s.data.contains ',')
  | _ => false

/-- A store whose single record carries the legacy value `",x"`. -/
def cexStoreComma : Store := [("id1", [("categories", PyVal.str ",x")])]

/-- A store whose single record already has a clean scalar category. -/
def cexStoreClean : Store := [("id9", [("categories", PyVal.str "tech")])]

/-- A clean store used as an idempotence witness. -/
def wStoreLegacy : Store := [("id2", [("categories", PyVal.str "sports,tech")])]

/-- The article source B's first container yields under `clsTech`. -/
def artB1 : ProcessedArticle :=
  ⟨"Markets rally on policy news", "Stocks rose sharply across the board today",
   "https://b.example/a1", "", "https://b.example/live", "2025-01-01T00:00:00",
   Option.some ⟨"tech", 97 / 100⟩⟩

/-- The run of the two-source scenario (source A raises, B has 3 items). -/
def cexRunArticles : List ProcessedArticle :=
  scrape_all_websites clsTech ujKeep "2025-01-01T00:00:00" fetchAB [siteA, siteB] 12

/-- The fields of the first record of a JSON array of objects. -/
def pyFirstRecord : PyVal → List (String × PyVal)
  | PyVal.list (PyVal.dict d :: _) => d
  | _ => []

/-- The upsert batch `store_in_chromadb` issues for `[artB1]`. -/
def batch1 : UpsertBatch :=
  { ids := [generate_article_id artB1.url artB1.headline],
    embeddings := [generate_embedding encZero (docText artB1)],
    documents := [docText artB1],
    metadatas := [storeMetadata artB1] }

/-! ## Helper lemmas -/

theorem pyLookup_pySet_self (m : List (String × PyVal)) (k : String) (v : PyVal) :
    pyLookup (pySet m k v) k = Option.some v := by
  induction m with
  | nil => simp [pySet, pyLookup]
  | cons p rest ih =>
    by_cases h : p.1 = k
    · simp [pySet, h, pyLookup]
    · simp [pySet, h, pyLookup, ih]

theorem pySet_eq_of_lookup (m : List (String × PyVal)) (k : String) (v : PyVal)
    (h : pyLookup m k = Option.some v) : pySet m k v = m := by
  induction m with
  | nil => simp [pyLookup] at h
  | cons p rest ih =>
    by_cases hk : p.1 = k
    · simp only [pyLookup, hk, if_pos] at h
      cases p with
      | mk k' w =>
        simp only at hk
        simp only [pySet, hk, if_pos]
        simp only [Option.some.injEq] at h
        rw [h]
    · cases p with
      | mk k' w =>
        simp only at hk
        simp only [pyLookup, hk, if_neg, ite_false] at h
        simp [pySet, hk, ih h]

theorem splitOnAux_headD (sep : Char) (cs : List Char) : ∀ (acc : List Char),
    (splitOnAux sep cs acc).headD "" =
      String.mk (acc.reverse ++ cs.takeWhile (fun c => !(c == sep))) := by
  induction cs with
  | nil => intro acc; simp [splitOnAux]
  | cons c cs ih =>
    intro acc
    by_cases hc : c = sep
    · subst hc
      simp [splitOnAux, List.takeWhile_cons]
    · rw [show splitOnAux sep (c :: cs) acc = splitOnAux sep cs (c :: acc) by
        simp [splitOnAux, hc]]
      rw [ih (c :: acc)]
      simp [List.takeWhile_cons, hc]

theorem zip_map_fst_map_snd {α β γ : Type} (g : β → γ) (s : List (α × β)) :
    (s.map Prod.fst).zip ((s.map Prod.snd).map g) =
      s.map (fun r => (r.1, g r.2)) := by
  induction s with
  | nil => rfl
  | cons x xs ih =>
    simp only [List.map_cons, List.zip_cons_cons]
    rw [ih]

theorem migrate_categories_fst (s : Store) :
    (migrate_categories s).1 = s.map (fun r => (r.1, migrateMeta r.2)) := by
  unfold migrate_categories
  rw [← List.map_eq_foldr]
  by_cases hs : s = []
  · subst hs; simp
  · have hne : ((s.map Prod.snd).map migrateMeta).isEmpty = false := by
      cases s with
      | nil => exact absurd rfl hs
      | cons x xs => rfl
    simp only [hne, Bool.false_eq_true, if_false]
    exact zip_map_fst_map_snd migrateMeta s

theorem migrateValue_clean (s : String) (h1 : s.isEmpty = false)
    (h2 : pyStartsWith s "[" = false) (h3 : s.data.contains ',' = false) :
    migrateValue (PyVal.str s) = PyVal.str s := by
  unfold migrateValue migrateTry
  have h3' : ¬ (',' ∈ s.data) := by simpa using h3
  simp [h1, h2, h3', pyTruthy]

theorem cleanCatVal_spec (v : PyVal) (h : cleanCatVal v = true) :
    ∃ s, v = PyVal.str s ∧ s.isEmpty = false ∧ pyStartsWith s "[" = false ∧
      s.data.contains ',' = false := by
  cases v with
  | str s =>
    simp only [cleanCatVal, Bool.and_eq_true, Bool.not_eq_true'] at h
    exact ⟨s, rfl, h.1.1, h.1.2, h.2⟩
  | num q => exact Bool.noConfusion h
  | bool b => exact Bool.noConfusion h
  | null => exact Bool.noConfusion h
  | list l => exact Bool.noConfusion h
  | dict l => exact Bool.noConfusion h

theorem migrateMeta_clean (m : Metadata)
    (h : cleanCatVal (pyGetD m "categories" (PyVal.str "")) = true) :
    migrateMeta m = m := by
  obtain ⟨s, hv, h1, h2, h3⟩ := cleanCatVal_spec _ h
  have hl : pyLookup m "categories" = Option.some (PyVal.str s) := by
    unfold pyGetD at hv
    cases hlk : pyLookup m "categories" with
    | none =>
      rw [hlk] at hv
      simp only [Option.getD_none, PyVal.str.injEq] at hv
      rw [← hv] at h1
      exact absurd h1 (by decide)
    | some w =>
      rw [hlk] at hv
      simp only [Option.getD_some] at hv
      rw [hv]
  unfold migrateMeta
  rw [hv, migrateValue_clean s h1 h2 h3]
  exact pySet_eq_of_lookup m _ _ hl

theorem processBatchLoop_eq_map (c : String → Except Unit ClsResult) :
    ∀ l : List ScrapedArticle, processBatchLoop c l = l.map (procOne c)
  | [] => rfl
  | [a] => rfl
  | [a, b] => rfl
  | [a, b, cc] => rfl
  | a :: b :: cc :: d :: rest => by
    simp only [processBatchLoop, List.map_cons]
    rw [processBatchLoop_eq_map c rest]

theorem process_articles_batch_eq_map (c : String → Except Unit ClsResult)
    (articles : List ScrapedArticle) :
    process_articles_batch c articles = articles.map (procOne c) := by
  unfold process_articles_batch
  by_cases h : articles.isEmpty = true
  · rw [if_pos h, List.isEmpty_iff.mp h]
    rfl
  · rw [if_neg h, processBatchLoop_eq_map]

theorem scrape_all_foldl (classifier : String → Except Unit ClsResult)
    (uj : String → String → String) (now : String)
    (fetch : String → Except Unit (List RawContainer)) (maxPerSite : Nat)
    (sites : List SiteConfig) :
    ∀ acc : List ProcessedArticle,
      sites.foldl (fun acc site =>
        let articles := scrape_website uj now site.url (fetch site.url)
          (min site.limit maxPerSite)
        if articles.isEmpty then acc
        else acc ++ process_articles_batch classifier articles) acc =
      acc ++ sites.flatMap (fun site => process_articles_batch classifier
        (scrape_website uj now site.url (fetch site.url)
          (min site.limit maxPerSite))) := by
  induction sites with
  | nil => intro acc; simp
  | cons s ss ih =>
    intro acc
    simp only [List.foldl_cons, List.flatMap_cons]
    rw [ih]
    by_cases h : (scrape_website uj now s.url (fetch s.url)
        (min s.limit maxPerSite)).isEmpty = true
    · rw [List.isEmpty_iff.mp h]
      simp [process_articles_batch]
    · simp only [h, Bool.false_eq_true, if_false, List.append_assoc]

theorem scrape_all_websites_eq_flatMap (classifier : String → Except Unit ClsResult)
    (uj : String → String → String) (now : String)
    (fetch : String → Except Unit (List RawContainer))
    (sites : List SiteConfig) (maxPerSite : Nat) :
    scrape_all_websites classifier uj now fetch sites maxPerSite =
      sites.flatMap (fun site => process_articles_batch classifier
        (scrape_website uj now site.url (fetch site.url)
          (min site.limit maxPerSite))) := by
  unfold scrape_all_websites
  simpa using scrape_all_foldl classifier uj now fetch maxPerSite sites []

theorem halfEven_bounds (y : ℚ) (h0 : 0 ≤ y) (h1 : y ≤ 100) :
    0 ≤ halfEven y ∧ halfEven y ≤ 100 := by
  have hf0 : (0 : ℤ) ≤ ⌊y⌋ := Int.floor_nonneg.mpr h0
  have hf1 : ⌊y⌋ ≤ 100 := by
    have h100 : (⌊(100 : ℚ)⌋ : ℤ) = 100 := by norm_num
    calc ⌊y⌋ ≤ ⌊(100 : ℚ)⌋ := Int.floor_le_floor h1
    _ = 100 := h100
  have hstrict : (1 : ℚ) / 2 ≤ y - (⌊y⌋ : ℚ) → ⌊y⌋ + 1 ≤ 100 := by
    intro hh
    have hfy : (⌊y⌋ : ℚ) < y := by linarith
    have : (⌊y⌋ : ℚ) < 100 := by linarith
    have : ⌊y⌋ < (100 : ℤ) := by exact_mod_cast this
    omega
  unfold halfEven
  split_ifs with hlt hgt heven
  · exact ⟨hf0, hf1⟩
  · exact ⟨by omega, hstrict (le_of_lt hgt)⟩
  · exact ⟨hf0, hf1⟩
  · exact ⟨by omega, hstrict (le_of_not_lt hlt)⟩

theorem pyRound2_bounds (x : ℚ) (h0 : 0 ≤ x) (h1 : x ≤ 1) :
    0 ≤ pyRound2 x ∧ pyRound2 x ≤ 1 := by
  unfold pyRound2
  obtain ⟨b0, b1⟩ := halfEven_bounds (x * 100) (by positivity) (by linarith)
  constructor
  · apply div_nonneg _ (by norm_num)
    exact_mod_cast b0
  · rw [div_le_one (by norm_num)]
    exact_mod_cast b1

theorem categorize_confidence_bounds (classifier : String → Except Unit ClsResult)
    (text : String)
    (hs : ∀ t r, classifier t = Except.ok r → ∀ q ∈ r.scores, 0 ≤ q ∧ q ≤ 1) :
    0 ≤ (categorize_article classifier text).confidence ∧
      (categorize_article classifier text).confidence ≤ 1 := by
  unfold categorize_article
  split_ifs with h
  · constructor <;> norm_num
  · unfold categorizeTry
    cases hc : classifier text with
    | error e => constructor <;> norm_num
    | ok r =>
      obtain ⟨labs, scs⟩ := r
      cases labs with
      | nil => exact ⟨by norm_num, by norm_num⟩
      | cons lab ls =>
        cases scs with
        | nil => exact ⟨by norm_num, by norm_num⟩
        | cons q qs =>
          have hq1 := hs text ⟨lab :: ls, q :: qs⟩ hc q (List.mem_cons_self _ _)
          exact pyRound2_bounds q hq1.1 hq1.2

theorem append_underscore_inj : ∀ (a c b d : List Char), '_' ∉ a → '_' ∉ c →
    a ++ '_' :: b = c ++ '_' :: d → a = c ∧ b = d := by
  intro a
  induction a with
  | nil =>
    intro c b d _ hc h
    cases c with
    | nil => simpa using h
    | cons y cs =>
      simp only [List.nil_append, List.cons_append, List.cons.injEq] at h
      exact absurd (h.1 ▸ List.mem_cons_self '_' cs) hc
  | cons x xs ih =>
    intro c b d ha hc h
    cases c with
    | nil =>
      simp only [List.cons_append, List.nil_append, List.cons.injEq] at h
      exact absurd (h.1 ▸ List.mem_cons_self x xs) ha
    | cons y cs =>
      simp only [List.cons_append, List.cons.injEq] at h
      have := ih cs b d (fun hm => ha (List.mem_cons_of_mem _ hm))
        (fun hm => hc (List.mem_cons_of_mem _ hm)) h.2
      exact ⟨by rw [h.1, this.1], this.2⟩

/-! ## Claim theorems -/

/-- **C1**: for every stored record processed by `migrate_categories`, the
record's `categories` metadata is replaced by the per-value mapping: a
string starting with `[` that parses as a JSON array of objects maps to
the first element's `category` field (`"general"` for the empty array);
a comma-containing string maps to its first comma-delimited segment; the
empty/missing value maps to `"general"`; any other string is left
unchanged; and any per-record error forces `"general"` instead of
aborting.  Concretely, `'[\x7b"category":"tech","score":0.9\x7d]'`
migrates to `"tech"`, `"sports,tech"` to `"sports"`, `""` to
`"general"`. -/
theorem migrate_categories_mapping :
    (∀ m : Metadata, pyLookup (migrateMeta m) "categories" =
        Option.some (migrateValue (pyGetD m "categories" (PyVal.str ""))))
    ∧ (∀ s d rest c, pyStartsWith s "[" = true →
        jsonLoads s = Except.ok (PyVal.list (PyVal.dict d :: rest)) →
        pyLookup d "category" = Option.some c →
        migrateValue (PyVal.str s) = c)
    ∧ (∀ s, pyStartsWith s "[" = true → jsonLoads s = Except.ok (PyVal.list []) →
        migrateValue (PyVal.str s) = PyVal.str "general")
    ∧ (∀ s, pyStartsWith s "[" = false → s.data.contains ',' = true →
        migrateValue (PyVal.str s) =
          PyVal.str (String.mk (s.data.takeWhile (fun c => !(c == ',')))))
    ∧ (∀ s, pyStartsWith s "[" = false → s.data.contains ',' = false → s = "" →
        migrateValue (PyVal.str s) = PyVal.str "general")
    ∧ (∀ s, pyStartsWith s "[" = false → s.data.contains ',' = false → s ≠ "" →
        migrateValue (PyVal.str s) = PyVal.str s)
    ∧ (∀ v, migrateTry v = Except.error () → migrateValue v = PyVal.str "general")
    ∧ migrateValue (PyVal.str "[\x7b\"category\":\"tech\",\"score\":0.9\x7d]") =
        PyVal.str "tech"
    ∧ migrateValue (PyVal.str "sports,tech") = PyVal.str "sports"
    ∧ migrateValue (PyVal.str "") = PyVal.str "general" := by
  refine ⟨?_, ?_, ?_, ?_, ?_, ?_, ?_, rfl, rfl, rfl⟩
  · intro m
    unfold migrateMeta
    exact pyLookup_pySet_self m "categories" _
  · intro s d rest c h1 h2 h3
    unfold migrateValue migrateTry
    simp [h1, h2, h3, pyTruthy]
  · intro s h1 h2
    unfold migrateValue migrateTry
    simp [h1, h2, pyTruthy]
  · intro s h1 h2
    unfold migrateValue migrateTry pySplitOn
    have h2' : ',' ∈ s.data := by simpa using h2
    have hh := splitOnAux_headD ',' s.data []
    simp only [List.headD_eq_head?, List.reverse_nil, List.nil_append] at hh
    simp [h1, h2', hh]
  · intro s h1 h2 h3
    subst h3
    rfl
  · intro s h1 h2 h3
    have h1' : s.isEmpty = false := by
      rw [Bool.eq_false_iff]
      intro hh
      exact h3 ((String.isEmpty_iff s).mp hh)
    exact migrateValue_clean s h1' h1 h2
  · intro v hv
    unfold migrateValue
    rw [hv]

/-- Witness for C1: the comma branch at the concrete legacy value
`"sports,tech"`. -/
theorem migrate_categories_mapping_witness :
    migrateValue (PyVal.str "sports,tech") =
      PyVal.str (String.mk ("sports,tech".data.takeWhile (fun c => !(c == ',')))) :=
  migrate_categories_mapping.2.2.2.1 "sports,tech" (by rfl) (by rfl)

/-- **C2** counterexample: `migrate_categories` is not idempotent.  On a
store whose record has legacy value `",x"`, one run yields category `""`
(the first comma-delimited segment) but a second run turns that into
`"general"`, so the doubled run differs from the single run. -/
theorem migrate_categories_twice_differs :
    (migrate_categories (migrate_categories cexStoreComma).1).1 ≠
      (migrate_categories cexStoreComma).1 := by
  intro h
  have h1 : (migrate_categories (migrate_categories cexStoreComma).1).1 =
      [("id1", [("categories", PyVal.str "general")])] := by rfl
  have h2 : (migrate_categories cexStoreComma).1 =
      [("id1", [("categories", PyVal.str "")])] := by rfl
  rw [h1, h2] at h
  simp only [List.cons.injEq, Prod.mk.injEq, PyVal.str.injEq, and_true,
    true_and] at h
  exact absurd h (by decide)

/-- **C2** amended: a second `migrate_categories` run leaves the store
unchanged provided every record's post-migration category value is a
clean scalar string (non-empty, not starting with `[`, comma-free); full
idempotence fails only on records whose single-run result is itself
empty, comma-joined, `[`-prefixed, or not a string, as in the
counterexample. -/
theorem migrate_categories_idem_on_clean (s : Store)
    (h : ∀ r ∈ (migrate_categories s).1,
        cleanCatVal (pyGetD r.2 "categories" (PyVal.str "")) = true) :
    (migrate_categories (migrate_categories s).1).1 =
      (migrate_categories s).1 := by
  rw [migrate_categories_fst ((migrate_categories s).1)]
  have hpt : ∀ r ∈ (migrate_categories s).1, (r.1, migrateMeta r.2) = r := by
    intro r hr
    rw [migrateMeta_clean r.2 (h r hr)]
  calc ((migrate_categories s).1).map (fun r => (r.1, migrateMeta r.2)) =
      ((migrate_categories s).1).map id := List.map_congr_left hpt
  _ = (migrate_categories s).1 := List.map_id _

/-- Witness for the amended C2 at a concrete legacy store. -/
theorem migrate_categories_idem_on_clean_witness :
    (migrate_categories (migrate_categories wStoreLegacy).1).1 =
      (migrate_categories wStoreLegacy).1 :=
  migrate_categories_idem_on_clean wStoreLegacy (by decide)

/-- **C3** counterexample: `migrate_categories` does not restrict its
write-back to changed records.  On a store whose only record already has
the clean scalar category `"tech"`, the pass changes nothing (the store
is unchanged), yet it still issues a batched update containing that
record's id and (identical) metadata. -/
theorem migrate_categories_writes_unchanged :
    (migrate_categories cexStoreClean).1 = cexStoreClean ∧
      (migrate_categories cexStoreClean).2 =
        Option.some (["id9"], [[("categories", PyVal.str "tech")]]) :=
  ⟨rfl, rfl⟩

/-- **C3** amended: `migrate_categories` writes back *every* record
(changed or not) in one single batched update — the update call carries
all ids and all (re)migrated metadatas — and issues no update call only
when the store is empty. -/
theorem migrate_categories_write_batch (s : Store) :
    (migrate_categories s).2 =
      if s.isEmpty then Option.none
      else Option.some (s.map Prod.fst, (s.map Prod.snd).map migrateMeta) := by
  unfold migrate_categories
  rw [← List.map_eq_foldr]
  by_cases hs : s = []
  · subst hs
    rfl
  · have hne : ((s.map Prod.snd).map migrateMeta).isEmpty = false := by
      cases s with
      | nil => exact absurd rfl hs
      | cons x xs => rfl
    have hse : s.isEmpty = false := by
      cases s with
      | nil => exact absurd rfl hs
      | cons x xs => rfl
    have hne' : ¬(((s.map Prod.snd).map migrateMeta).isEmpty = true) := by
      rw [hne]; exact Bool.false_ne_true
    have hse' : ¬(s.isEmpty = true) := by
      rw [hse]; exact Bool.false_ne_true
    rw [if_neg hne', if_neg hse']

/-- **C4** counterexample: the persisted array elements do *not* match
the section-3 Article record.  In a concrete run, the first persisted
element has no top-level `category` or `confidence` field; instead the
categorization result sits under a nested `categories` object. -/
theorem persisted_shape_flat_fields_missing :
    pyLookup (pyFirstRecord (persistedOutput cexRunArticles)) "category" =
        Option.none
    ∧ pyLookup (pyFirstRecord (persistedOutput cexRunArticles)) "confidence" =
        Option.none
    ∧ pyLookup (pyFirstRecord (persistedOutput cexRunArticles)) "categories" =
        Option.some (PyVal.dict [("category", PyVal.str "tech"),
          ("confidence", PyVal.num (97 / 100))]) :=
  ⟨rfl, rfl, by with_unfolding_all rfl⟩

/-- **C4** amended: every element of the persisted array has the six
top-level string fields `headline, description, url, image, source,
scraped_at`, plus a nested `categories` object holding a string
`category` and a numeric `confidence`; the confidence lies in `[0, 1]`
whenever the classifier's reported scores do. -/
theorem persisted_article_shape (classifier : String → Except Unit ClsResult)
    (uj : String → String → String) (now : String)
    (fetch : String → Except Unit (List RawContainer))
    (sites : List SiteConfig) (maxPerSite : Nat)
    (hs : ∀ t r, classifier t = Except.ok r → ∀ q ∈ r.scores, 0 ≤ q ∧ q ≤ 1) :
    ∀ a ∈ scrape_all_websites classifier uj now fetch sites maxPerSite,
      ∃ c : CatResult,
        a.categories = Option.some c ∧ 0 ≤ c.confidence ∧ c.confidence ≤ 1 ∧
        a.toDict = PyVal.dict
          [("headline", PyVal.str a.headline),
           ("description", PyVal.str a.description),
           ("url", PyVal.str a.url),
           ("image", PyVal.str a.image),
           ("source", PyVal.str a.source),
           ("scraped_at", PyVal.str a.scraped_at),
           ("categories", PyVal.dict [("category", PyVal.str c.category),
             ("confidence", PyVal.num c.confidence)])] := by
  intro a ha
  rw [scrape_all_websites_eq_flatMap] at ha
  simp only [List.mem_flatMap] at ha
  obtain ⟨site, hsite, hmem⟩ := ha
  rw [process_articles_batch_eq_map] at hmem
  simp only [List.mem_map] at hmem
  obtain ⟨a0, ha0, rfl⟩ := hmem
  exact ⟨categorize_article classifier (a0.headline ++ " " ++ a0.description),
    rfl, (categorize_confidence_bounds classifier _ hs).1,
    (categorize_confidence_bounds classifier _ hs).2, rfl⟩

/-- Witness for the amended C4 at the first article of the concrete
two-source run. -/
theorem persisted_article_shape_witness :
    ∃ c : CatResult,
      artB1.categories = Option.some c ∧ 0 ≤ c.confidence ∧ c.confidence ≤ 1 ∧
      artB1.toDict = PyVal.dict
        [("headline", PyVal.str artB1.headline),
         ("description", PyVal.str artB1.description),
         ("url", PyVal.str artB1.url),
         ("image", PyVal.str artB1.image),
         ("source", PyVal.str artB1.source),
         ("scraped_at", PyVal.str artB1.scraped_at),
         ("categories", PyVal.dict [("category", PyVal.str c.category),
           ("confidence", PyVal.num c.confidence)])] :=
  persisted_article_shape clsTech ujKeep "2025-01-01T00:00:00" fetchAB
    [siteA, siteB] 12
    (by
      intro t r h q hq
      simp only [clsTech] at h
      injection h with h2
      subst h2
      have hq2 : q = 97 / 100 ∨ q = 3 / 100 := by simpa using hq
      rcases hq2 with h | h <;> subst h <;> constructor <;> norm_num)
    artB1 (by with_unfolding_all decide)

/-- **C5** counterexample: the `_` delimiter does not make the pre-hash
unambiguous, so distinct `(url, headline)` pairs can collide: the
distinct pairs `("a_b", "c")` and `("a", "b_c")` share the pre-hash
string `"a_b_c"` and therefore receive the same id. -/
theorem generate_article_id_prehash_collision :
    (("a_b", "c") : String × String) ≠ ("a", "b_c") ∧
      generate_article_id "a_b" "c" = generate_article_id "a" "b_c" := by
  constructor
  · intro h
    simp only [Prod.mk.injEq] at h
    exact absurd h.1 (by decide)
  · show md5Hex (utf8Encode (preHashString "a_b" "c")) =
      md5Hex (utf8Encode (preHashString "a" "b_c"))
    exact congrArg (fun t => md5Hex (utf8Encode t))
      (show preHashString "a_b" "c" = preHashString "a" "b_c" from rfl)

/-- **C5** amended: the id is a deterministic pure function of the
pre-hash string `f"\x7burl\x7d_\x7bheadline\x7d"`, and the pre-hash is
injective on pairs whose url contains no underscore; for general pairs
the delimiter can be ambiguous (see the counterexample). -/
theorem generate_article_id_delim_safe (u₁ h₁ u₂ h₂ : String)
    (hu₁ : '_' ∉ u₁.data) (hu₂ : '_' ∉ u₂.data) :
    (preHashString u₁ h₁ = preHashString u₂ h₂ → u₁ = u₂ ∧ h₁ = h₂) ∧
      ∀ v₁ w₁ v₂ w₂ : String, preHashString v₁ w₁ = preHashString v₂ w₂ →
        generate_article_id v₁ w₁ = generate_article_id v₂ w₂ := by
  constructor
  · intro h
    have hd : u₁.data ++ '_' :: h₁.data = u₂.data ++ '_' :: h₂.data := by
      have hc := congrArg String.data h
      simpa [preHashString, String.data_append, List.append_assoc] using hc
    obtain ⟨e1, e2⟩ := append_underscore_inj _ _ _ _ hu₁ hu₂ hd
    exact ⟨congrArg String.mk e1, congrArg String.mk e2⟩
  · intro v₁ w₁ v₂ w₂ h
    unfold generate_article_id
    rw [h]

/-- Witness for the amended C5 at a concrete underscore-free url. -/
theorem generate_article_id_delim_safe_witness :
    ("https://x.example/p" : String) = "https://x.example/p" ∧
      ("Title one" : String) = "Title one" :=
  (generate_article_id_delim_safe "https://x.example/p" "Title one"
    "https://x.example/p" "Title one" (by decide) (by decide)).1 rfl

/-- **C6**: the short-text short-circuit.  Whenever the text strips to
empty or has fewer than 3 whitespace-delimited tokens,
`categorize_article` returns `\x7bcategory: "general", confidence: 1.0\x7d`,
and the result is independent of the classifier (it is never invoked);
in particular `categorize("")` and `categorize("a b")` short-circuit. -/
theorem categorize_short_text_short_circuit :
    (∀ (text : String) (c₁ c₂ : String → Except Unit ClsResult),
        (pyStrip text = "" ∨ (pySplitWS text).length < 3) →
        categorize_article c₁ text = ⟨"general", 1⟩ ∧
          categorize_article c₁ text = categorize_article c₂ text)
    ∧ (∀ c, categorize_article c "" = ⟨"general", 1⟩)
    ∧ (∀ c, categorize_article c "a b" = ⟨"general", 1⟩) := by
  refine ⟨?_, fun c => rfl, fun c => rfl⟩
  intro text c₁ c₂ h
  have hb : ((pyStrip text).isEmpty || decide ((pySplitWS text).length < 3)) =
      true := by
    rcases h with h | h
    · rw [h]
      rfl
    · simp [h]
  constructor
  · unfold categorize_article
    rw [if_pos hb]
  · unfold categorize_article
    rw [if_pos hb, if_pos hb]

/-- Witness for C6 at the two-token text `"a b"` and two different
classifiers (one failing, one succeeding). -/
theorem categorize_short_text_short_circuit_witness :
    categorize_article clsTech "a b" = ⟨"general", 1⟩ ∧
      categorize_article clsTech "a b" = categorize_article clsBoom "a b" :=
  categorize_short_text_short_circuit.1 "a b" clsTech clsBoom
    (Or.inr (by decide))

/-- **C7**: classifier failure is fail-soft.  If the classifier call
raises, `categorize_article` returns `\x7b"general", 1.0\x7d` (and being a
total function it never propagates an exception); consequently
`process_articles_batch` always yields one processed article per input
— no batch is aborted by a categorization failure. -/
theorem categorize_article_fail_soft :
    (∀ (classifier : String → Except Unit ClsResult) (text : String) (e : Unit),
        classifier text = Except.error e →
        categorize_article classifier text = ⟨"general", 1⟩)
    ∧ (∀ (classifier : String → Except Unit ClsResult)
        (articles : List ScrapedArticle),
        (process_articles_batch classifier articles).length = articles.length) := by
  constructor
  · intro classifier text e h
    unfold categorize_article
    by_cases hb : ((pyStrip text).isEmpty ||
        decide ((pySplitWS text).length < 3)) = true
    · rw [if_pos hb]
    · rw [if_neg hb]
      unfold categorizeTry
      rw [h]
  · intro classifier articles
    rw [process_articles_batch_eq_map, List.length_map]

/-- Witness for C7: a classifier that always raises, on a 4-token text. -/
theorem categorize_article_fail_soft_witness :
    categorize_article clsBoom "one two three four" = ⟨"general", 1⟩ :=
  categorize_article_fail_soft.1 clsBoom "one two three four" () rfl

/-- **C8**: per-source failure isolation.  A run equals the union
(concatenation in site order) of the processed articles of each source;
a source whose fetch raised contributes `[]` (it is skipped and the run
continues); and in the concrete two-source scenario where source A's
fetch raises and source B yields 3 valid items, the run returns exactly
the 3 processed articles of source B, for every classifier. -/
theorem scrape_run_source_isolation :
    (∀ (classifier : String → Except Unit ClsResult)
        (uj : String → String → String) (now : String)
        (fetch : String → Except Unit (List RawContainer))
        (sites : List SiteConfig) (maxPerSite : Nat),
        scrape_all_websites classifier uj now fetch sites maxPerSite =
          sites.flatMap (fun site => process_articles_batch classifier
            (scrape_website uj now site.url (fetch site.url)
              (min site.limit maxPerSite))))
    ∧ (∀ (uj : String → String → String) (now url : String) (e : Unit)
        (limit : Nat), scrape_website uj now url (Except.error e) limit = [])
    ∧ (∀ classifier : String → Except Unit ClsResult,
        scrape_all_websites classifier ujKeep "2025-01-01T00:00:00" fetchAB
            [siteA, siteB] 12 =
          process_articles_batch classifier (scrape_website ujKeep
            "2025-01-01T00:00:00" siteB.url (fetchAB siteB.url)
            (min siteB.limit 12))
        ∧ (scrape_all_websites classifier ujKeep "2025-01-01T00:00:00" fetchAB
            [siteA, siteB] 12).length = 3) := by
  refine ⟨scrape_all_websites_eq_flatMap, fun uj now url e limit => rfl, ?_⟩
  intro classifier
  have h := scrape_all_websites_eq_flatMap classifier ujKeep
    "2025-01-01T00:00:00" fetchAB [siteA, siteB] 12
  have hA : scrape_website ujKeep "2025-01-01T00:00:00" siteA.url
      (fetchAB siteA.url) (min siteA.limit 12) = [] := rfl
  constructor
  · rw [h]
    simp only [List.flatMap_cons, List.flatMap_nil, hA, List.append_nil]
    rw [show process_articles_batch classifier ([] : List ScrapedArticle) = []
      from rfl]
    rw [List.nil_append]
  · rw [h]
    simp only [List.flatMap_cons, List.flatMap_nil, hA, List.append_nil]
    rw [show process_articles_batch classifier ([] : List ScrapedArticle) = []
      from rfl]
    rw [List.nil_append, process_articles_batch_eq_map, List.length_map]
    rfl

/-- **C9**: zero-vector fallback.  On text that strips to empty,
`generate_embedding` returns the all-zero vector of dimension 384,
independently of the encoder (which is never invoked). -/
theorem generate_embedding_zero_vector :
    (∀ (text : String) (e₁ e₂ : String → List ℚ), pyStrip text = "" →
        generate_embedding e₁ text = List.replicate 384 0 ∧
          (generate_embedding e₁ text).length = 384 ∧
          generate_embedding e₁ text = generate_embedding e₂ text)
    ∧ (∀ e, generate_embedding e "" = List.replicate 384 0) := by
  constructor
  · intro text e₁ e₂ h
    have hb : (pyStrip text).isEmpty = true := by rw [h]; rfl
    unfold generate_embedding
    rw [if_pos hb, if_pos hb]
    exact ⟨rfl, by rw [List.length_replicate], rfl⟩
  · intro e
    rfl

/-- Witness for C9 at the empty string with two distinct encoders. -/
theorem generate_embedding_zero_vector_witness :
    generate_embedding encZero "" = List.replicate 384 0 ∧
      (generate_embedding encZero "").length = 384 ∧
      generate_embedding encZero "" = generate_embedding (fun _ => [1]) "" :=
  generate_embedding_zero_vector.1 "" encZero (fun _ => [1]) rfl

theorem pyTake_length_le (s : String) (n : Nat) : (pyTake s n).length ≤ n := by
  show (String.mk (s.data.take n)).length ≤ n
  rw [show (String.mk (s.data.take n)).length = (s.data.take n).length from rfl]
  rw [List.length_take]
  exact Nat.min_le_left n s.data.length

/-- **C10**: invariants of the metadata written by `store_in_chromadb`:
the value under key `"categories"` is a scalar string equal to the
article's assigned category (or `"general"` when none was assigned);
the stored description is the description truncated to at most 500
characters and the stored image at most 200; and `text_length` equals
the length of the stored document text (headline, a space, then the
untruncated description). -/
theorem stored_metadata_invariants (encode : String → List ℚ)
    (articles : List ProcessedArticle) (a : ProcessedArticle)
    (ha : a ∈ articles) (batch : UpsertBatch)
    (hb : store_in_chromadb encode articles = Option.some batch) :
    batch.metadatas = articles.map storeMetadata
    ∧ batch.documents = articles.map docText
    ∧ storeMetadata a ∈ batch.metadatas
    ∧ pyLookup (storeMetadata a) "categories" =
        Option.some (PyVal.str ((a.categories.map CatResult.category).getD
          "general"))
    ∧ pyLookup (storeMetadata a) "description" =
        Option.some (PyVal.str (pyTake a.description 500))
    ∧ (pyTake a.description 500).length ≤ 500
    ∧ pyLookup (storeMetadata a) "image" =
        Option.some (PyVal.str (pyTake a.image 200))
    ∧ (pyTake a.image 200).length ≤ 200
    ∧ pyLookup (storeMetadata a) "text_length" =
        Option.some (PyVal.num ((docText a).length : ℚ)) := by
  unfold store_in_chromadb at hb
  by_cases he : articles.isEmpty = true
  · rw [if_pos he] at hb
    exact absurd hb (by simp)
  · rw [if_neg he] at hb
    injection hb with hb2
    subst hb2
    refine ⟨rfl, rfl, List.mem_map_of_mem storeMetadata ha, ?_, ?_,
      pyTake_length_le a.description 500, ?_, pyTake_length_le a.image 200, ?_⟩
    · cases hc : a.categories with
      | none => simp [storeMetadata, pyLookup, hc]
      | some c => simp [storeMetadata, pyLookup, hc]
    · simp [storeMetadata, pyLookup]
    · simp [storeMetadata, pyLookup]
    · simp [storeMetadata, pyLookup]

/-- Witness for C10 at a concrete article and upsert batch. -/
theorem stored_metadata_invariants_witness :
    batch1.metadatas = [artB1].map storeMetadata
    ∧ batch1.documents = [artB1].map docText
    ∧ storeMetadata artB1 ∈ batch1.metadatas
    ∧ pyLookup (storeMetadata artB1) "categories" =
        Option.some (PyVal.str ((artB1.categories.map CatResult.category).getD
          "general"))
    ∧ pyLookup (storeMetadata artB1) "description" =
        Option.some (PyVal.str (pyTake artB1.description 500))
    ∧ (pyTake artB1.description 500).length ≤ 500
    ∧ pyLookup (storeMetadata artB1) "image" =
        Option.some (PyVal.str (pyTake artB1.image 200))
    ∧ (pyTake artB1.image 200).length ≤ 200
    ∧ pyLookup (storeMetadata artB1) "text_length" =
        Option.some (PyVal.num ((docText artB1).length : ℚ)) :=
  stored_metadata_invariants encZero [artB1] artB1 (List.mem_singleton.mpr rfl)
    batch1 rfl
